import Mathlib

/-!
Verification of the zero-balance scanner (src/podz_sphere_scanner.py).

This file gives a shallow embedding of the data model and operations of the
scanner and proves properties of the embedded definitions.  Machine-level
byte counts are modelled as `Nat` (the program only ever adds nonnegative
byte counts).  Network effects are modelled by a `HostBehavior` record that
records, for each host, how its HEAD and GET requests respond (or which
network failure they raise); file-system effects are modelled by explicit
state passing over a `FileState` value for the single checkpoint file.
Wall-clock quantities (timestamps, latencies, ETA) are omitted from the
embedding.
-/

/-! ## Configuration (src lines 19-34) -/

/-- CONFIG MAX_DATA_USAGE: 10KB maximum per scan (src line 20). -/
def MAX_DATA_USAGE : Nat := 1024 * 10

/-- CONFIG CHUNK_SIZE: read only first 512 bytes of a GET body (src line 33). -/
def CHUNK_SIZE : Nat := 512

/-! ## DataCounter (src lines 50-77) -/

/-- Embeds the DataCounter state: bytes_used and requests_made
(src lines 52-55; start_time is wall clock and omitted). -/
structure DataCounter where
  bytes_used : Nat
  requests_made : Nat
  deriving DecidableEq

/-- Embeds DataCounter.__init__ (src lines 52-55): both counters start at 0. -/
def DataCounter.init : DataCounter := ⟨0, 0⟩

/-- Embeds DataCounter.add_bytes (src lines 57-67): add the byte count and
bump the request count, then return False when the new total strictly
exceeds MAX_DATA_USAGE and True otherwise. -/
def DataCounter.add_bytes (c : DataCounter) (bytes_count : Nat) : DataCounter × Bool :=
  let c2 : DataCounter := ⟨c.bytes_used + bytes_count, c.requests_made + 1⟩
  if c2.bytes_used > MAX_DATA_USAGE then (c2, false) else (c2, true)

/-- A sequence of add_bytes calls, returning the final counter and the list
of returned booleans, in call order. -/
def addSeq : DataCounter → List Nat → DataCounter × List Bool
  | c, [] => (c, [])
  | c, b :: bs =>
    let r := c.add_bytes b
    let rest := addSeq r.1 bs
    (rest.1, r.2 :: rest.2)

theorem add_bytes_fst (c : DataCounter) (n : Nat) :
    (c.add_bytes n).1 = ⟨c.bytes_used + n, c.requests_made + 1⟩ := by
  unfold DataCounter.add_bytes
  dsimp only
  split <;> rfl

theorem add_bytes_snd (c : DataCounter) (n : Nat) :
    (c.add_bytes n).2 = decide (c.bytes_used + n ≤ MAX_DATA_USAGE) := by
  unfold DataCounter.add_bytes
  dsimp only
  by_cases h : c.bytes_used + n > MAX_DATA_USAGE
  · rw [if_pos h]
    simp [Nat.not_le.mpr h]
  · rw [if_neg h]
    simp [Nat.not_lt.mp h]

theorem addSeq_fst_bytes (bs : List Nat) :
    ∀ c : DataCounter, (addSeq c bs).1.bytes_used = c.bytes_used + bs.sum := by
  induction bs with
  | nil => intro c; simp [addSeq]
  | cons b t ih =>
    intro c
    show (addSeq (c.add_bytes b).1 t).1.bytes_used = _
    rw [ih, add_bytes_fst]
    simp [List.sum_cons]
    omega

theorem addSeq_snd_getD (bs : List Nat) :
    ∀ (c : DataCounter) (i : Nat), i < bs.length →
      (addSeq c bs).2.getD i false
        = decide (c.bytes_used + (bs.take (i + 1)).sum ≤ MAX_DATA_USAGE) := by
  induction bs with
  | nil => intro c i h; simp at h
  | cons b t ih =>
    intro c i h
    cases i with
    | zero =>
      show (c.add_bytes b).2 = _
      rw [add_bytes_snd]
      simp [List.sum_cons]
    | succ j =>
      have hj : j < t.length := by simpa using h
      show (addSeq (c.add_bytes b).1 t).2.getD j false = _
      rw [ih (c.add_bytes b).1 j hj, add_bytes_fst]
      simp [List.sum_cons]
      constructor <;> intro <;> omega

theorem sum_take_mono (bs : List Nat) :
    ∀ i j : Nat, i ≤ j → (bs.take i).sum ≤ (bs.take j).sum := by
  induction bs with
  | nil => intro i j _; simp
  | cons b t ih =>
    intro i j hij
    cases i with
    | zero => simp
    | succ i2 =>
      cases j with
      | zero => omega
      | succ j2 =>
        simp only [List.take_succ_cons, List.sum_cons]
        exact Nat.add_le_add_left (ih i2 j2 (by omega)) b

/-- C1: on a fresh DataCounter, after any sequence of add_bytes calls the
tracked bytes_used equals the exact sum of the arguments; the i-th call
returns true exactly when the cumulative total after it is at most
MAX_DATA_USAGE (so it returns false from the first call whose cumulative
total strictly exceeds the ceiling); and once a call returns false every
later call also returns false. -/
theorem budget_tracker_add_sequence (bs : List Nat) :
    (addSeq DataCounter.init bs).1.bytes_used = bs.sum ∧
    (∀ i : Nat, i < bs.length →
      (addSeq DataCounter.init bs).2.getD i false
        = decide ((bs.take (i + 1)).sum ≤ MAX_DATA_USAGE)) ∧
    (∀ i j : Nat, i ≤ j → j < bs.length →
      (addSeq DataCounter.init bs).2.getD i false = false →
      (addSeq DataCounter.init bs).2.getD j false = false) := by
  refine ⟨?_, ?_, ?_⟩
  · have h := addSeq_fst_bytes bs DataCounter.init
    simpa [DataCounter.init] using h
  · intro i h
    have h2 := addSeq_snd_getD bs DataCounter.init i h
    simpa [DataCounter.init] using h2
  · intro i j hij hj hfi
    have hi : i < bs.length := lt_of_le_of_lt hij hj
    have h1 := addSeq_snd_getD bs DataCounter.init i hi
    have h2 := addSeq_snd_getD bs DataCounter.init j hj
    rw [h1] at hfi
    rw [h2]
    simp only [DataCounter.init, decide_eq_false_iff_not] at hfi ⊢
    intro hle
    apply hfi
    have hm := sum_take_mono bs (i + 1) (j + 1) (by omega)
    omega

/-- C1 witness: concrete run [600, 9641, 5] against the 10240-byte ceiling;
the second call pushes the total to 10241 and returns false, and the third
call also returns false. -/
theorem budget_tracker_add_sequence_witness :
    (addSeq DataCounter.init [600, 9641, 5]).2.getD 2 false = false :=
  (budget_tracker_add_sequence [600, 9641, 5]).2.2 1 2 (by decide) (by decide) (by decide)

/-! ## Probe model (src lines 191-296)

The network is modelled per host: how the HEAD request to the host responds
(a status code and a header size, or a network-level failure), and likewise
for the fallback GET request (additionally a body length).  A Python
exception raised by the requests call is an `Except.error` carrying the
failure kind; the code catches every exception without inspecting it. -/

/-- Kinds of network-level failure a request can raise (timeout, connection
refused, connection reset, TLS failure); the source catches them all with a
bare except. -/
inductive NetFailure
  | timeout
  | connRefused
  | connReset
  | tlsError
  deriving DecidableEq

/-- Response to the HEAD request (src lines 211-218): status code and the
length of the serialized response headers. -/
structure HeadResp where
  status : Nat
  headersLen : Nat
  deriving DecidableEq

/-- Response to the fallback GET request (src lines 237-254): status code,
header length and total body length available from the server. -/
structure GetResp where
  status : Nat
  headersLen : Nat
  bodyLen : Nat
  deriving DecidableEq

/-- How one host answers the two requests minimal_request can issue. -/
structure HostBehavior where
  head : Except NetFailure HeadResp
  get : Except NetFailure GetResp

/-- Embeds the dict returned by minimal_request (src lines 224-230 for the
HEAD path, 258-265 for the GET path): the HEAD path carries no "size" key,
modelled as `size = none`. -/
structure ProbeResult where
  domain : String
  status : Nat
  data : Nat
  httpMethod : String
  size : Option Nat
  deriving DecidableEq

/-- Embeds ZeroBalanceScanner.minimal_request (src lines 201-273).
HEAD first: on a status below 400 the estimated data (header length + 200)
is added to the counter and, when add_bytes allows it, the HEAD result is
returned without a body size.  Otherwise (HEAD raised, status ≥ 400, or
add_bytes returned false) the code falls through to a streamed GET that
samples at most CHUNK_SIZE body bytes; on success the GET result carries
the sampled size.  Every failure path returns `none` — the exception kind
is discarded by the bare except handlers. -/
def minimal_request (b : HostBehavior) (counter : DataCounter) (domain : String) :
    DataCounter × Option ProbeResult :=
  let headStep : DataCounter × Option ProbeResult :=
    match b.head with
    | Except.ok r =>
      let data_used := r.headersLen + 200
      if r.status < 400 then
        let a := counter.add_bytes data_used
        if a.2 then (a.1, some ⟨domain, r.status, data_used, "HEAD", none⟩)
        else (a.1, none)
      else (counter, none)
    | Except.error _ => (counter, none)
  match headStep with
  | (c1, some r) => (c1, some r)
  | (c1, none) =>
    match b.get with
    | Except.ok g =>
      let sampled := min g.bodyLen CHUNK_SIZE
      let data_used := g.headersLen + sampled + 200
      let a := c1.add_bytes data_used
      if a.2 then (a.1, some ⟨domain, g.status, data_used, "GET", some sampled⟩)
      else (a.1, none)
    | Except.error _ => (c1, none)

/-- The mutable fields of ZeroBalanceScanner (src lines 194-199): the data
counter and the accumulated found_domains list. -/
structure ScannerState where
  data_counter : DataCounter
  found_domains : List String
  deriving DecidableEq

/-- Embeds ZeroBalanceScanner.__init__ (src lines 194-199): fresh counter,
empty found_domains. -/
def ZeroBalanceScanner.init : ScannerState := ⟨DataCounter.init, []⟩

/-- Embeds ZeroBalanceScanner.scan_domain (src lines 275-296): the domain is
appended to found_domains exactly when minimal_request returned a result
whose status is below 400 and whose sampled size (0 when absent, as in
`result.get("size", 0)`) exceeds 100 bytes. -/
def scan_domain (b : HostBehavior) (s : ScannerState) (domain : String) :
    ScannerState × Bool :=
  let mr := minimal_request b s.data_counter domain
  match mr.2 with
  | some r =>
    if r.status < 400 then
      if r.size.getD 0 > 100 then
        (⟨mr.1, s.found_domains ++ [domain]⟩, true)
      else (⟨mr.1, s.found_domains⟩, false)
    else (⟨mr.1, s.found_domains⟩, false)
  | none => (⟨mr.1, s.found_domains⟩, false)

/-- A host that answers HEAD with status 200 and headers of length 300,
and would answer GET with a 6000-byte body. -/
def behav_head200 : HostBehavior :=
  ⟨Except.ok ⟨200, 300⟩, Except.ok ⟨200, 300, 6000⟩⟩

/-- A host whose HEAD raises but whose GET answers 200 with headers of
length 100 and a 600-byte body. -/
def behav_get_ok : HostBehavior :=
  ⟨Except.error NetFailure.timeout, Except.ok ⟨200, 100, 600⟩⟩

/-- A host on which both the HEAD and the GET request time out. -/
def behav_all_fail : HostBehavior :=
  ⟨Except.error NetFailure.timeout, Except.error NetFailure.timeout⟩

/-- A host that answers both HEAD and GET with a 404 error page carrying a
5000-byte body. -/
def behav_404 : HostBehavior :=
  ⟨Except.ok ⟨404, 300⟩, Except.ok ⟨404, 300, 5000⟩⟩

/-- C3 counterexample: a host that answers HTTP 200 (HEAD succeeds, and its
GET body would be 6000 bytes, above any full-size threshold) is NOT added
to found_domains: the HEAD-path result carries no size, so scan_domain
treats it as "no content" and excludes it, contradicting the claim that
such a host is classified accessible. -/
theorem head200_large_body_excluded :
    (minimal_request behav_head200 DataCounter.init "a.example").2
      = some ⟨"a.example", 200, 500, "HEAD", none⟩ ∧
    (scan_domain behav_head200 ZeroBalanceScanner.init "a.example").1.found_domains = [] := by
  constructor <;> rfl

/-- C3 (amended): a host is added to found_domains when its probe goes
through the GET fallback (here: HEAD raises a network failure) and the GET
yields a status below 400 with more than 100 sampled body bytes that fit
the budget; a host on which both requests fail (e.g. a timeout) is
excluded. -/
theorem scan_domain_get_path_inclusion (b bt : HostBehavior) (d : String)
    (fk fk1 fk2 : NetFailure) (g : GetResp)
    (hh : b.head = Except.error fk) (hg : b.get = Except.ok g)
    (hs : g.status < 400) (hsz : 100 < min g.bodyLen CHUNK_SIZE)
    (hfit : g.headersLen + min g.bodyLen CHUNK_SIZE + 200 ≤ MAX_DATA_USAGE)
    (ht1 : bt.head = Except.error fk1) (ht2 : bt.get = Except.error fk2) :
    (scan_domain b ZeroBalanceScanner.init d).1.found_domains = [d] ∧
    (scan_domain bt ZeroBalanceScanner.init d).1.found_domains = [] := by
  constructor
  · have hok : (DataCounter.init.add_bytes (g.headersLen + min g.bodyLen CHUNK_SIZE + 200)).2
        = true := by
      rw [add_bytes_snd]
      simpa [DataCounter.init] using hfit
    simp [scan_domain, minimal_request, hh, hg, hok, hs, hsz, ZeroBalanceScanner.init]
  · simp [scan_domain, minimal_request, ht1, ht2, ZeroBalanceScanner.init]

/-- C3 witness: a host whose HEAD times out and whose GET returns 200 with
600 body bytes (512 sampled) is included; a fully timing-out host is not. -/
theorem scan_domain_get_path_inclusion_witness :
    (scan_domain behav_get_ok ZeroBalanceScanner.init "a.example").1.found_domains
      = ["a.example"] ∧
    (scan_domain behav_all_fail ZeroBalanceScanner.init "a.example").1.found_domains = [] :=
  scan_domain_get_path_inclusion behav_get_ok behav_all_fail "a.example"
    NetFailure.timeout NetFailure.timeout NetFailure.timeout ⟨200, 100, 600⟩
    rfl rfl (by decide) (by decide) (by decide) rfl rfl

/-- C4 counterexample: a host that serves a 404 error page (a server
response with status in [400,599]) is NOT included in found_domains,
contradicting the claim that every category except dead — in particular
error_page — is part of the accessible set. -/
theorem error_page_excluded_from_found :
    (minimal_request behav_404 DataCounter.init "e.example").2
      = some ⟨"e.example", 404, 1012, "GET", some 512⟩ ∧
    (scan_domain behav_404 ZeroBalanceScanner.init "e.example").1.found_domains = [] := by
  constructor <;> rfl

/-- C4 (amended): found_domains gains the probed host exactly when
minimal_request produced a result with status below 400 and more than 100
sampled body bytes; every other outcome — error responses with status ≥
400, results with at most 100 sampled bytes, and probes with no HTTP
response at all (the code never tests bare TCP connects, so port-only hosts
yield no result) — leaves found_domains unchanged, i.e. is excluded. -/
theorem found_domains_characterization (b : HostBehavior) (s : ScannerState) (d : String) :
    ((scan_domain b s d).1.found_domains = s.found_domains ++ [d] ↔
      ∃ r : ProbeResult, (minimal_request b s.data_counter d).2 = some r ∧
        r.status < 400 ∧ 100 < r.size.getD 0) ∧
    ((scan_domain b s d).1.found_domains = s.found_domains ++ [d] ∨
      (scan_domain b s d).1.found_domains = s.found_domains) := by
  have hne : s.found_domains ≠ s.found_domains ++ [d] := by
    intro h
    have h2 := congrArg List.length h
    simp at h2
  unfold scan_domain
  dsimp only
  split
  next r heq =>
    split
    next h1 =>
      split
      next h2 =>
        exact ⟨⟨fun _ => ⟨r, heq, h1, h2⟩, fun _ => rfl⟩, Or.inl rfl⟩
      next h2 =>
        refine ⟨⟨fun h => absurd h hne, ?_⟩, Or.inr rfl⟩
        rintro ⟨r2, hr2, -, hsz2⟩
        rw [heq] at hr2
        cases Option.some.inj hr2
        exact absurd hsz2 h2
    next h1 =>
      refine ⟨⟨fun h => absurd h hne, ?_⟩, Or.inr rfl⟩
      rintro ⟨r2, hr2, hs2, -⟩
      rw [heq] at hr2
      cases Option.some.inj hr2
      exact absurd hs2 h1
  next heq =>
    refine ⟨⟨fun h => absurd h hne, ?_⟩, Or.inr rfl⟩
    rintro ⟨r2, hr2, -, -⟩
    rw [heq] at hr2
    exact Option.noConfusion hr2

/-- C6 counterexample: when both the HEAD and the GET request fail at the
network level (here: timeouts), minimal_request returns no ProbeResult at
all — in particular no result tagged with the failure kind and status 0 —
and leaves the counter untouched, contradicting the claim that the probe
returns a failure-tagged result with status 0. -/
theorem probe_failure_returns_none :
    minimal_request behav_all_fail DataCounter.init "t.example"
      = (DataCounter.init, none) := by
  rfl

/-! ## Checkpoint record and scan loop (src lines 146-188 and 344-400) -/

/-- Embeds the state dict written by ZeroBalanceState.save (src lines
152-158): total_domains, current_index, found_domains and the hardcoded
data_used of 0.  The timestamp field is wall clock and omitted. -/
structure Checkpoint where
  total_domains : Nat
  current_index : Nat
  found_domains : List String
  data_used : Nat
  deriving DecidableEq

/-- Embeds the state dict construction inside ZeroBalanceState.save (src
lines 152-158): data_used is the literal 0, independent of any counter. -/
def ZeroBalanceState_mkState (domains : List String) (current_index : Nat)
    (found : List String) : Checkpoint :=
  ⟨domains.length, current_index, found, 0⟩

/-- Embeds the for-loop of start_scanning (src lines 361-385) over the
remaining domain list, carrying the absolute index i.  Per iteration:
the stats snapshot is taken BEFORE the probe (src line 366), the domain is
scanned (line 371), progress is checkpointed when the 1-based position is a
multiple of 10 (lines 375-376), and the loop breaks when the snapshot —
the byte total from before this iteration's probe — is at least
MAX_DATA_USAGE (lines 379-382).  Returns the final scanner state, the list
of domains actually probed, and the checkpoints written, in order. -/
def scan_loop (behav : String → HostBehavior) (allDomains : List String) :
    List String → Nat → ScannerState → ScannerState × List String × List Checkpoint
  | [], _, s => (s, [], [])
  | d :: ds, i, s =>
    let snapshotBytes := s.data_counter.bytes_used
    let s2 := (scan_domain (behav d) s d).1
    let saves :=
      if (i + 1) % 10 = 0 then [ZeroBalanceState_mkState allDomains (i + 1) s2.found_domains]
      else []
    if snapshotBytes ≥ MAX_DATA_USAGE then (s2, [d], saves)
    else
      let rest := scan_loop behav allDomains ds (i + 1) s2
      (rest.1, d :: rest.2.1, saves ++ rest.2.2)

/-- Embeds start_scanning (src lines 344-361): a fresh ZeroBalanceScanner is
constructed (line 346) whatever the resume index, and the loop runs from
resume_index to the end of the list (line 361). -/
def start_scanning (behav : String → HostBehavior) (domains : List String)
    (resume_index : Nat) : ScannerState × List String × List Checkpoint :=
  scan_loop behav domains (domains.drop resume_index) resume_index ZeroBalanceScanner.init

/-- Network behavior for the C2 scenario: a.example answers GET with huge
headers so that its probe alone exceeds the 10240-byte ceiling; every other
host answers GET modestly. -/
def behav_exceed : String → HostBehavior := fun d =>
  if d = "a.example" then ⟨Except.error NetFailure.timeout, Except.ok ⟨200, 10000, 600⟩⟩
  else ⟨Except.error NetFailure.timeout, Except.ok ⟨200, 100, 600⟩⟩

/-- C2 counterexample: probing a.example pushes the counter to 10712 bytes,
strictly over the 10240-byte ceiling, yet the scan still probes b.example
(issuing its network request and consuming further data) before halting:
the probed list is [a.example, b.example], contradicting the claim that no
host after the exceedance-causing one is ever probed. -/
theorem scan_probes_one_host_after_budget_exceeded :
    (scan_domain (behav_exceed "a.example") ZeroBalanceScanner.init
        "a.example").1.data_counter.bytes_used > MAX_DATA_USAGE ∧
    (scan_loop behav_exceed ["a.example", "b.example", "c.example"]
        ["a.example", "b.example", "c.example"] 0 ZeroBalanceScanner.init).2.1
      = ["a.example", "b.example"] := by
  constructor <;> decide

theorem scan_loop_cons (behav : String → HostBehavior) (allDomains : List String)
    (d : String) (ds : List String) (i : Nat) (s : ScannerState) :
    scan_loop behav allDomains (d :: ds) i s =
      if s.data_counter.bytes_used ≥ MAX_DATA_USAGE then
        ((scan_domain (behav d) s d).1, [d],
          if (i + 1) % 10 = 0 then
            [ZeroBalanceState_mkState allDomains (i + 1)
              (scan_domain (behav d) s d).1.found_domains]
          else [])
      else
        ((scan_loop behav allDomains ds (i + 1) (scan_domain (behav d) s d).1).1,
          d :: (scan_loop behav allDomains ds (i + 1) (scan_domain (behav d) s d).1).2.1,
          (if (i + 1) % 10 = 0 then
            [ZeroBalanceState_mkState allDomains (i + 1)
              (scan_domain (behav d) s d).1.found_domains]
          else [])
            ++ (scan_loop behav allDomains ds (i + 1) (scan_domain (behav d) s d).1).2.2) :=
  rfl

theorem scan_loop_probed_of_over (behav : String → HostBehavior)
    (allDomains : List String) (ds : List String) (i : Nat) (s : ScannerState)
    (h : s.data_counter.bytes_used ≥ MAX_DATA_USAGE) :
    (scan_loop behav allDomains ds i s).2.1 = ds.take 1 := by
  cases ds with
  | nil => rfl
  | cons d t =>
    rw [scan_loop_cons, if_pos h]
    rfl

/-- C2 (amended): the budget check reads the byte total snapshotted before
the current iteration's probe, so when the counter is still below the
ceiling and probing host d pushes it strictly over, the loop probes exactly
one further host — the next one in the list, if any — and then halts; no
host beyond that is ever probed. -/
theorem scan_halts_one_probe_after_exceed (behav : String → HostBehavior)
    (allDomains : List String) (d : String) (ds : List String) (i : Nat)
    (s : ScannerState)
    (hlt : s.data_counter.bytes_used < MAX_DATA_USAGE)
    (hgt : (scan_domain (behav d) s d).1.data_counter.bytes_used > MAX_DATA_USAGE) :
    (scan_loop behav allDomains (d :: ds) i s).2.1 = d :: ds.take 1 := by
  rw [scan_loop_cons, if_neg (by omega)]
  dsimp only
  rw [scan_loop_probed_of_over behav allDomains ds (i + 1)
    (scan_domain (behav d) s d).1 (by omega)]

/-- C2 witness: the amended statement at the concrete exceedance scenario —
after a.example blows the budget, exactly b.example is still probed. -/
theorem scan_halts_one_probe_after_exceed_witness :
    (scan_loop behav_exceed ["a.example", "b.example", "c.example"]
        ("a.example" :: ["b.example", "c.example"]) 0 ZeroBalanceScanner.init).2.1
      = "a.example" :: ["b.example", "c.example"].take 1 :=
  scan_halts_one_probe_after_exceed behav_exceed
    ["a.example", "b.example", "c.example"] "a.example" ["b.example", "c.example"]
    0 ZeroBalanceScanner.init (by decide) (by decide)

/-- C6 (amended): when both requests of host d fail at the network level,
minimal_request returns none with the byte counter unchanged (the failure
kind is discarded and no status-0 result is produced), and — while the
budget snapshot is below the ceiling — the scan carries on with the
remaining hosts from an unchanged scanner state: a single host failure
never aborts the scan. -/
theorem probe_failure_scan_continues (behav : String → HostBehavior)
    (allDomains : List String) (d : String) (ds : List String) (i : Nat)
    (s : ScannerState) (c : DataCounter) (fk1 fk2 : NetFailure)
    (hb : behav d = ⟨Except.error fk1, Except.error fk2⟩)
    (hlt : s.data_counter.bytes_used < MAX_DATA_USAGE) :
    minimal_request (behav d) c d = (c, none) ∧
    (scan_loop behav allDomains (d :: ds) i s).1
      = (scan_loop behav allDomains ds (i + 1) s).1 ∧
    (scan_loop behav allDomains (d :: ds) i s).2.1
      = d :: (scan_loop behav allDomains ds (i + 1) s).2.1 := by
  have hmr : ∀ c2 : DataCounter, minimal_request (behav d) c2 d = (c2, none) := by
    intro c2
    rw [hb]
    rfl
  have hsd : scan_domain (behav d) s d = (s, false) := by
    unfold scan_domain
    rw [hmr s.data_counter]
  refine ⟨hmr c, ?_, ?_⟩ <;>
    · rw [scan_loop_cons, if_neg (by omega), hsd]

/-- C6 witness: a host timing out on both requests at the head of a
two-host list leaves the probe with no result and the scan proceeding to
the second host. -/
theorem probe_failure_scan_continues_witness :
    minimal_request ((fun _ => behav_all_fail) "t.example") DataCounter.init "t.example"
      = (DataCounter.init, none) ∧
    (scan_loop (fun _ => behav_all_fail) ["t.example", "u.example"]
        ("t.example" :: ["u.example"]) 0 ZeroBalanceScanner.init).1
      = (scan_loop (fun _ => behav_all_fail) ["t.example", "u.example"]
          ["u.example"] 1 ZeroBalanceScanner.init).1 ∧
    (scan_loop (fun _ => behav_all_fail) ["t.example", "u.example"]
        ("t.example" :: ["u.example"]) 0 ZeroBalanceScanner.init).2.1
      = "t.example" :: (scan_loop (fun _ => behav_all_fail) ["t.example", "u.example"]
          ["u.example"] 1 ZeroBalanceScanner.init).2.1 :=
  probe_failure_scan_continues (fun _ => behav_all_fail) ["t.example", "u.example"]
    "t.example" ["u.example"] 0 ZeroBalanceScanner.init DataCounter.init
    NetFailure.timeout NetFailure.timeout rfl (by decide)

/-- C10: every checkpoint written during a scan records data_used = 0,
whatever the counter actually accumulated (ZeroBalanceState.save hardcodes
the field, src line 157); and start_scanning always builds its scanner —
hence its byte counter — fresh at zero, even when resuming (src line 346),
so the data ceiling bounds each individual run rather than the cumulative
usage across interrupted-and-resumed scans. -/
theorem checkpoint_data_used_zero_and_fresh_counter :
    (∀ (behav : String → HostBehavior) (allDomains ds : List String) (i : Nat)
      (s : ScannerState) (c : Checkpoint),
      c ∈ (scan_loop behav allDomains ds i s).2.2 → c.data_used = 0) ∧
    (∀ (behav : String → HostBehavior) (domains : List String) (resume_index : Nat),
      start_scanning behav domains resume_index
        = scan_loop behav domains (domains.drop resume_index) resume_index
            ⟨⟨0, 0⟩, []⟩) := by
  constructor
  · intro behav allDomains ds
    induction ds with
    | nil =>
      intro i s c h
      simp [scan_loop] at h
    | cons d t ih =>
      intro i s c h
      rw [scan_loop_cons] at h
      by_cases hb : s.data_counter.bytes_used ≥ MAX_DATA_USAGE
      · rw [if_pos hb] at h
        dsimp only at h
        by_cases h10 : (i + 1) % 10 = 0
        · rw [if_pos h10] at h
          have hc := List.mem_singleton.mp h
          subst hc
          rfl
        · rw [if_neg h10] at h
          exact absurd h (List.not_mem_nil c)
      · rw [if_neg hb] at h
        dsimp only at h
        rw [List.mem_append] at h
        rcases h with h | h
        · by_cases h10 : (i + 1) % 10 = 0
          · rw [if_pos h10] at h
            have hc := List.mem_singleton.mp h
            subst hc
            rfl
          · rw [if_neg h10] at h
            exact absurd h (List.not_mem_nil c)
        · exact ih (i + 1) _ c h
  · intro behav domains resume_index
    rfl

/-- C10 witness: a one-host run starting at absolute index 9 writes its
periodic checkpoint at position 10, and that checkpoint has data_used 0. -/
theorem checkpoint_data_used_zero_witness :
    (ZeroBalanceState_mkState ["h.example"] 10 ["h.example"]).data_used = 0 :=
  checkpoint_data_used_zero_and_fresh_counter.1 (fun _ => behav_get_ok)
    ["h.example"] ["h.example"] 9 ZeroBalanceScanner.init
    (ZeroBalanceState_mkState ["h.example"] 10 ["h.example"]) (by decide)

/-! ## Checkpoint file model (src lines 146-188)

The single checkpoint file CONFIG["STATE_FILE"] is modelled by a
`FileState`: absent (no file), corrupt (a file whose contents do not parse
as JSON — e.g. empty or truncated), or valid with a parsed Checkpoint. -/

/-- The on-disk state of the checkpoint file. -/
inductive FileState
  | absent
  | corrupt
  | valid (c : Checkpoint)
  deriving DecidableEq

/-- Embeds ZeroBalanceState.load (src lines 166-176): None when the file
does not exist, None when reading or JSON-parsing raises, otherwise the
parsed checkpoint. -/
def ZeroBalanceState_load : FileState → Option Checkpoint
  | FileState.absent => none
  | FileState.corrupt => none
  | FileState.valid c => some c

/-- Embeds os.remove: raises FileNotFoundError when the file is absent,
otherwise removes it. -/
def os_remove : FileState → Except String FileState
  | FileState.absent => Except.error "FileNotFoundError"
  | _ => Except.ok FileState.absent

/-- Embeds ZeroBalanceState.clear (src lines 178-182): the removal is
guarded by os.path.exists, so an absent file is left untouched rather than
passed to os.remove. -/
def ZeroBalanceState_clear (fs : FileState) : Except String FileState :=
  if fs = FileState.absent then Except.ok fs else os_remove fs

/-- C9: clear is idempotent — on every file state, absent included, it
succeeds (never reaches the os.remove error) and leaves the checkpoint
absent, so a second clear finds the same absent state and load after any
clear returns None. -/
theorem state_clear_idempotent_load_absent :
    ∀ fs : FileState, ZeroBalanceState_clear fs = Except.ok FileState.absent ∧
      ZeroBalanceState_clear FileState.absent = Except.ok FileState.absent ∧
      ZeroBalanceState_load FileState.absent = none := by
  intro fs
  refine ⟨?_, rfl, rfl⟩
  cases fs <;> rfl

/-- The two file-system steps performed by ZeroBalanceState.save (src
lines 159-162): `open(STATE_FILE, "w")` truncates the file in place, and
json.dump then writes the serialized checkpoint. -/
inductive SaveStep
  | truncateFile
  | writeJson (c : Checkpoint)
  deriving DecidableEq

/-- The step sequence of one save call: truncate the state file, then write
the new contents.  There is no temporary file and no rename. -/
def save_ops (c : Checkpoint) : List SaveStep :=
  [SaveStep.truncateFile, SaveStep.writeJson c]

/-- Effect of one save step on the checkpoint file: truncation leaves an
empty — hence unparseable — file, a completed write leaves the new valid
checkpoint. -/
def applySaveStep : FileState → SaveStep → FileState
  | _, SaveStep.truncateFile => FileState.corrupt
  | _, SaveStep.writeJson c => FileState.valid c

/-- Runs a prefix of the save steps, modelling a crash after that prefix. -/
def runSaveSteps (fs : FileState) (ops : List SaveStep) : FileState :=
  ops.foldl applySaveStep fs

/-- Embeds ZeroBalanceState.save (src lines 149-164): when the write
succeeds the file holds the new checkpoint and save returns True; when
open or json.dump raises, the bare except returns False (non-fatal). -/
def ZeroBalanceState_save (fs : FileState) (ioFail : Bool) (c : Checkpoint) :
    FileState × Bool :=
  if ioFail then (fs, false) else (runSaveSteps fs (save_ops c), true)

/-- A previously saved checkpoint used in the C8 scenario. -/
def ckpt_old : Checkpoint := ⟨2, 1, ["x.example"], 0⟩

/-- The newer checkpoint being written in the C8 scenario. -/
def ckpt_new : Checkpoint := ⟨2, 2, ["x.example", "y.example"], 0⟩

/-- C8 counterexample: save is not atomic.  Interrupting it after its first
file-system step (the truncating open) leaves the file corrupt — neither
the previous checkpoint nor the complete new one — and load then returns
None, contradicting the temp-file-then-rename claim. -/
theorem save_truncation_corrupts_checkpoint :
    runSaveSteps (FileState.valid ckpt_old) ((save_ops ckpt_new).take 1)
      = FileState.corrupt ∧
    FileState.corrupt ≠ FileState.valid ckpt_old ∧
    FileState.corrupt ≠ FileState.valid ckpt_new ∧
    ZeroBalanceState_load FileState.corrupt = none := by
  refine ⟨rfl, by decide, by decide, rfl⟩

/-- C8 (amended): save overwrites the state file in place — truncating
open followed by the JSON write, with no temporary file and no rename — so
a crash between the two steps leaves a corrupted file rather than the
previous or the new checkpoint; a completed save leaves the new checkpoint
and returns true, and a write failure is non-fatal: save merely returns
false. -/
theorem save_overwrites_in_place :
    ∀ (fs : FileState) (c cOld : Checkpoint),
      ZeroBalanceState_save fs false c = (FileState.valid c, true) ∧
      (ZeroBalanceState_save fs true c).2 = false ∧
      runSaveSteps (FileState.valid cOld) ((save_ops c).take 1) = FileState.corrupt := by
  intro fs c cOld
  exact ⟨rfl, rfl, rfl⟩

/-! ## Interruption model (src lines 395-400, 473-481 and 504-511)

main installs a SIGINT handler (src lines 477-481) that prints a message
and exits, so a Ctrl+C triggers that handler; the KeyboardInterrupt branch
of start_scanning (lines 395-400) saves the state and returns normally,
after which main continues to the unconditional ZeroBalanceState.delete()
at line 511.  Both flows are modelled as lists of effects on the
checkpoint file. -/

/-- Effects the main program can perform, as far as the checkpoint file is
concerned. -/
inductive MainEffect
  | printMsg (s : String)
  | saveState (c : Checkpoint)
  | deleteState
  | exitProg (code : Nat)

/-- Whether an effect writes the checkpoint. -/
def MainEffect.isSave : MainEffect → Bool
  | MainEffect.saveState _ => true
  | _ => false

/-- Effect of one main-program step on the checkpoint file; printing and
exiting leave it untouched, ZeroBalanceState.delete removes it (src lines
184-188). -/
def applyEffect (fs : FileState) : MainEffect → FileState
  | MainEffect.saveState c => FileState.valid c
  | MainEffect.deleteState => FileState.absent
  | _ => fs

/-- Runs a list of effects on the checkpoint file. -/
def applyEffects (fs : FileState) (es : List MainEffect) : FileState :=
  es.foldl applyEffect fs

/-- Embeds the SIGINT handler installed by main (src lines 477-481): it
prints that progress is being saved and then calls sys.exit(0); it performs
no save. -/
def signal_handler_effects : List MainEffect :=
  [MainEffect.printMsg "⚠ Scan interrupted. Saving progress...",
   MainEffect.exitProg 0]

/-- Embeds the KeyboardInterrupt branch of start_scanning (src lines
395-400): print, save the current progress, return normally. -/
def keyboard_interrupt_effects (c : Checkpoint) : List MainEffect :=
  [MainEffect.printMsg "⏸ Scan paused by user", MainEffect.saveState c]

/-- Embeds what main does after start_scanning returns (src lines 505-511):
it unconditionally deletes the state file before showing results. -/
def main_post_scan_effects : List MainEffect :=
  [MainEffect.deleteState]

/-- C5: the claim is right and the code is wrong.  The installed SIGINT
handler announces a save but performs none (its effect list contains no
save), so an external cancellation persists nothing new; and even on the
KeyboardInterrupt path, where start_scanning does save a checkpoint before
returning, main unconditionally deletes the state file afterwards, so no
checkpoint remains persisted after the run ends and a later run finds
none to resume from. -/
theorem interrupt_checkpoint_not_persisted :
    signal_handler_effects.filter MainEffect.isSave = [] ∧
    (∀ (fs : FileState) (c : Checkpoint),
      applyEffects fs (signal_handler_effects) = fs ∧
      applyEffects fs (keyboard_interrupt_effects c ++ main_post_scan_effects)
        = FileState.absent) ∧
    ZeroBalanceState_load FileState.absent = none := by
  refine ⟨rfl, ?_, rfl⟩
  intro fs c
  exact ⟨rfl, rfl⟩

/-! ## Empty host list (src lines 104-143, 299-319 and 387-391) -/

/-- Embeds Python str.strip(): drop leading and trailing whitespace
characters. -/
def py_strip (s : String) : String :=
  ⟨((s.data.dropWhile Char.isWhitespace).reverse.dropWhile Char.isWhitespace).reverse⟩

/-- Embeds Python str.startswith for the hash comment marker. -/
def py_startswith_hash (s : String) : Bool :=
  match s.data with
  | [] => false
  | c :: _ => c == '#'

/-- Embeds the domain filtering of get_domain_file (src lines 135-137):
strip each line, keep the nonempty ones, drop comment lines starting with
the hash character. -/
def parseDomains (ls : List String) : List String :=
  ((ls.map py_strip).filter (fun l => !(l == ""))).filter
    (fun l => !(py_startswith_hash l))

/-- Embeds the return of get_domain_file once the file exists (src lines
133-140): the parsed domain list is returned unconditionally; there is no
emptiness check. -/
def get_domain_file_domains (fileLines : List String) : List String :=
  parseDomains fileLines

/-- Embeds the percent computation of show_progress (src line 302):
`(current / total) * 100` raises ZeroDivisionError when total is 0;
otherwise it yields the percentage (Nat division stands in for the float
value, whose exact value no claim depends on). -/
def show_progress (current total : Nat) : Except String Nat :=
  if total = 0 then Except.error "ZeroDivisionError"
  else Except.ok (current * 100 / total)

/-- Embeds the final progress call of start_scanning (src line 389):
show_progress is invoked with current = total = number of domains. -/
def start_scanning_final_progress (domains : List String) : Except String Nat :=
  show_progress domains.length domains.length

/-- C7 counterexample: a file holding only a comment and blank lines yields
an empty domain list, which get_domain_file hands back unchanged ("Loaded 0
domains") instead of rejecting it; the scan then starts with zero work
items and its final progress display divides by the zero total, raising
ZeroDivisionError — not a configuration error. -/
theorem empty_domain_list_reaches_zero_division :
    get_domain_file_domains ["# comment", "", "   "] = [] ∧
    start_scanning_final_progress (get_domain_file_domains ["# comment", "", "   "])
      = Except.error "ZeroDivisionError" := by
  constructor <;> rfl

theorem parseDomains_nil_of_trivial (ls : List String)
    (h : ∀ l ∈ ls, py_strip l = "" ∨ py_startswith_hash (py_strip l) = true) :
    parseDomains ls = [] := by
  induction ls with
  | nil => rfl
  | cons l t ih =>
    have hl := h l (by simp)
    have ht := ih (fun x hx => h x (by simp [hx]))
    unfold parseDomains at ht ⊢
    simp only [List.map_cons]
    by_cases h2 : py_strip l = ""
    · have hp : (!(py_strip l == "")) = false := by
        rw [h2]
        rfl
      rw [List.filter_cons, hp]
      simpa using ht
    · have hp : (!(py_strip l == "")) = true := by
        have hb : (py_strip l == "") = false := by
          simpa using h2
        rw [hb]
        rfl
      rw [List.filter_cons, hp]
      have hh : py_startswith_hash (py_strip l) = true := by
        rcases hl with h1 | h1
        · exact absurd h1 h2
        · exact h1
      simp only [if_true, cond_true, List.filter_cons, hh, Bool.not_true]
      simpa using ht

/-- C7 (amended): an empty or all-comment/blank host list is NOT rejected
before scanning: get_domain_file returns the empty list, start_scanning
begins with zero work items, and the final progress step then executes
with a total of zero and fails with ZeroDivisionError — the run ends in
the generic unexpected-error handler, not with a configuration error. -/
theorem empty_domain_list_not_rejected (ls : List String)
    (h : ∀ l ∈ ls, py_strip l = "" ∨ py_startswith_hash (py_strip l) = true) :
    get_domain_file_domains ls = [] ∧
    start_scanning_final_progress (get_domain_file_domains ls)
      = Except.error "ZeroDivisionError" := by
  have h0 := parseDomains_nil_of_trivial ls h
  constructor
  · exact h0
  · unfold get_domain_file_domains
    rw [h0]
    rfl

/-- C7 witness: the amended statement at a concrete file containing one
comment line and one blank line. -/
theorem empty_domain_list_not_rejected_witness :
    get_domain_file_domains ["# only a comment", "  "] = [] ∧
    start_scanning_final_progress (get_domain_file_domains ["# only a comment", "  "])
      = Except.error "ZeroDivisionError" :=
  empty_domain_list_not_rejected ["# only a comment", "  "] (by decide)
